import Mathlib

/-!
Verification of the fast-mailer SMTP client (src/src/mailer/mailer.ts)
against its natural-language specification.

The TypeScript source is shallowly embedded: each private method of the
`FastMailer` class becomes a Lean function over explicit state.  JavaScript
numbers holding timestamps and configured limits are modelled as `Int`
(all call sites use integer milliseconds); durations in seconds, which the
source computes in floating point, are modelled as `ℚ` — exact for the
integer-millisecond inputs and cutoffs the code compares.
-/

namespace FastMailer

/-! ## Header sanitizer (mailer.ts lines 424-427)

`sanitizeHeader` is `value.replace(/[\r\n\t\v\f]/g, '')`: it deletes every
occurrence of CR (13), LF (10), TAB (9), VT (11), FF (12). -/

/-- The character class of the regex `/[\r\n\t\v\f]/`:
TAB (9), LF (10), VT (11), FF (12), CR (13). -/
def isForbiddenHeaderChar (c : Char) : Bool :=
  [9, 10, 11, 12, 13].contains c.toNat

/-- `value.replace(/[\r\n\t\v\f]/g, '')`: delete all forbidden characters. -/
def sanitizeHeader (value : String) : String :=
  ⟨value.data.filter (fun c => !isForbiddenHeaderChar c)⟩

/-- `true` iff the string contains one of CR, LF, TAB, VT, FF. -/
def containsForbiddenHeaderChar (s : String) : Bool :=
  s.data.any isForbiddenHeaderChar

/-! ## Address validator (mailer.ts lines 150-160)

`validateEmail` first applies quick rejections (empty, whitespace, dot-dot,
leading/trailing dot, at-at), then tests the anchored regex of line 152:
local part `L` followed by zero or more dot-`L` groups, then an at sign,
then domain label `D` followed by one or more dot-`D` groups, where `L` is
an alphanumeric optionally followed by a run of local-class characters
ending in an alphanumeric, and `D` is an alphanumeric optionally followed
by a run of alphanumerics/hyphens ending in an alphanumeric.

Neither character class contains the at sign or the dot, so a string
matches the regex iff it has exactly one at sign, its local part splits on
dots into pieces each matching `L`, and its domain splits on dots into at
least two labels each matching `D`.  The recognizer below decides exactly
that. -/

def isAlnumChar (c : Char) : Bool :=
  (c.isUpper || c.isLower) || c.isDigit

/-- Code points of the special characters admitted in the interior of a
local-part piece by the regex character class: 33 bang, 35 hash,
36 dollar, 37 percent, 38 ampersand, 39 apostrophe, 42 star, 43 plus,
45 hyphen, 47 slash, 61 equals, 63 question, 94 caret, 95 underscore,
96 backtick, 123 opening brace, 124 vertical bar, 125 closing brace,
126 tilde. -/
def localSpecialCodes : List Nat :=
  [33, 35, 36, 37, 38, 39, 42, 43, 45, 47, 61, 63, 94, 95, 96, 123, 124, 125, 126]

def isLocalPartChar (c : Char) : Bool :=
  isAlnumChar c || localSpecialCodes.contains c.toNat

def isDomainChar (c : Char) : Bool :=
  isAlnumChar c || c = '-'

/-- A dot-free run matching `[a-zA-Z0-9](?:CLASS*[a-zA-Z0-9])?`:
nonempty, first and last characters alphanumeric, interior characters in
`CLASS` (which itself contains the alphanumerics). -/
def matchPiece (interior : Char → Bool) (s : List Char) : Bool :=
  match s with
  | [] => false
  | c :: rest =>
    isAlnumChar c &&
    (match rest with
     | [] => true
     | d :: ds =>
       isAlnumChar ((d :: ds).getLast (by simp)) && (d :: ds).dropLast.all interior)

/-- Split a character list at every occurrence of `sep`
(the empty list yields one empty piece, like `String.splitOn`). -/
def splitOnChar (sep : Char) : List Char → List (List Char)
  | [] => [[]]
  | c :: rest =>
    let r := splitOnChar sep rest
    if c == sep then
      [] :: r
    else
      match r with
      | [] => [[c]]
      | h :: t => (c :: h) :: t

/-- Local part `L(\.L)*`: every dot-separated piece matches `L`. -/
def matchLocalPart (s : List Char) : Bool :=
  (splitOnChar '.' s).all (matchPiece isLocalPartChar)

/-- Domain `D(\.D)+`: at least two dot-separated labels, each matching `D`. -/
def matchDomainPart (s : List Char) : Bool :=
  let labels := splitOnChar '.' s
  decide (labels.length ≥ 2) && labels.all (matchPiece isDomainChar)

/-- The anchored regex of mailer.ts line 152. -/
def matchEmailRegex (s : List Char) : Bool :=
  match splitOnChar '@' s with
  | [localPart, domainPart] => matchLocalPart localPart && matchDomainPart domainPart
  | _ => false

/-- `true` iff the first list begins with the second. -/
def charsLeadWith : List Char → List Char → Bool
  | _, [] => true
  | [], _ :: _ => false
  | b :: bs, a :: as => a == b && charsLeadWith bs as

/-- JavaScript `String.prototype.includes`: `pat` occurs contiguously in `s`. -/
def charsContainSub (pat : List Char) : List Char → Bool
  | [] => charsLeadWith [] pat
  | c :: rest => charsLeadWith (c :: rest) pat || charsContainSub pat rest

def stringIncludes (s pat : String) : Bool :=
  charsContainSub pat.data s.data

/-- mailer.ts lines 150-160: quick rejections, then the regex.  The
built-in string operations `includes`, `startsWith` and `endsWith` are
expressed on the character list. -/
def validateEmail (email : String) : Bool :=
  if email = "" || email.data.any (fun c => c == ' ') || stringIncludes email ".." ||
     charsLeadWith email.data ".".data ||
     charsLeadWith email.data.reverse ".".data ||
     stringIncludes email "@@" then
    false
  else
    matchEmailRegex email.data

/-! ## Log level filter (mailer.ts lines 562-581)

`shouldLog(level)` reads `config.logging?.level || 'info'` and returns
`true` for everything when the configured level is `debug`, otherwise a
strict equality test against the configured level. -/

/-- `this.config.logging?.level || 'info'` — `undefined` and the empty
string (both falsy) default to `"info"`. -/
def effectiveConfigLevel (configLevel : Option String) : String :=
  match configLevel with
  | none => "info"
  | some s => if s = "" then "info" else s

/-- mailer.ts lines 562-581. -/
def shouldLog (configLevel : Option String) (level : String) : Bool :=
  let c := effectiveConfigLevel configLevel
  if c = "debug" then
    true
  else if c = "info" then
    level == "info"
  else if c = "warn" then
    level == "warn"
  else if c = "error" then
    level == "error"
  else
    false

/-! ## Metrics (mailer.ts lines 95-146 and 886-922)

The `Metrics` record mirrors the structure initialized in the constructor.
JavaScript numbers are modelled as `Nat` for pure counters, `Int` for
values that are also decremented or hold timestamps, and `ℚ` for the
floating-point duration/rate arithmetic (exact on the integer-millisecond
inputs involved; where JavaScript would produce `Infinity` from a division
by zero, the rational model produces `0` — no property below depends on
that value). -/

inductive EmailStatus
  | success
  | failure
  | none_
deriving DecidableEq, Repr

structure ErrorsByType where
  connection : Nat
  authentication : Nat
  rate_limit : Nat
  validation : Nat
  timeout : Nat
  attachment : Nat
  command : Nat
  unknown : Nat
deriving DecidableEq, Repr

/-- Cumulative histogram counters at the cutoffs 0.1, 0.5, 1, 2, 5 s. -/
structure DurationBuckets where
  le01 : Nat
  le05 : Nat
  le1 : Nat
  le2 : Nat
  le5 : Nat
deriving DecidableEq, Repr

structure DurationMetrics where
  sum : ℚ
  count : Nat
  avg : ℚ
  max : ℚ
  min : ℚ
  buckets : DurationBuckets
deriving DecidableEq, Repr

/-- One entry of `metrics.failed_emails` (lines 774-785), reduced to the
fields the verified properties inspect. -/
structure FailureRecord where
  recipient : String
  subject : String
  errorCode : String
  command : String
deriving DecidableEq, Repr

structure RateLimitWindow where
  count : Nat
  remaining : Int
  reset_time : Int
deriving DecidableEq, Repr

structure FailureDetails where
  last_error : Option FailureRecord
  error_count_by_recipient : List (String × Nat)
  most_common_errors : List String
  avg_failures_per_recipient : ℚ
deriving DecidableEq, Repr

structure Metrics where
  emails_total : Nat
  emails_successful : Nat
  emails_failed : Nat
  failed_emails : List FailureRecord
  email_send_duration_seconds : DurationMetrics
  email_send_rate : ℚ
  last_email_status : EmailStatus
  last_email_timestamp : Int
  active_connections : Int
  connection_errors : Nat
  rate_limit_exceeded_total : Nat
  current_rate_limit_window : RateLimitWindow
  errors_by_type : ErrorsByType
  consecutive_failures : Nat
  last_error_timestamp : Option Int
  banned_recipients_count : Int
  total_retry_attempts : Nat
  successful_retries : Nat
  failure_details : FailureDetails
deriving DecidableEq, Repr

/-- `Number.MAX_VALUE`, the initial value of the duration minimum. -/
def numberMaxValue : ℚ := 2 ^ 1024 - 2 ^ 971

/-- The metrics object built in the constructor (lines 95-146).
`t0` is `Date.now()` at construction; `burstLimit` and `cooldownPeriod`
are the merged rate-limiting configuration values read on lines 122-123. -/
def initialMetrics (t0 burstLimit cooldownPeriod : Int) : Metrics :=
  { emails_total := 0
    emails_successful := 0
    emails_failed := 0
    failed_emails := []
    email_send_duration_seconds :=
      { sum := 0, count := 0, avg := 0, max := 0, min := numberMaxValue
        buckets := { le01 := 0, le05 := 0, le1 := 0, le2 := 0, le5 := 0 } }
    email_send_rate := 0
    last_email_status := EmailStatus.none_
    last_email_timestamp := t0
    active_connections := 0
    connection_errors := 0
    rate_limit_exceeded_total := 0
    current_rate_limit_window :=
      { count := 0, remaining := burstLimit, reset_time := t0 + cooldownPeriod }
    errors_by_type :=
      { connection := 0, authentication := 0, rate_limit := 0, validation := 0
        timeout := 0, attachment := 0, command := 0, unknown := 0 }
    consecutive_failures := 0
    last_error_timestamp := none
    banned_recipients_count := 0
    total_retry_attempts := 0
    successful_retries := 0
    failure_details :=
      { last_error := none, error_count_by_recipient := []
        most_common_errors := [], avg_failures_per_recipient := 0 } }

/-- `updateMetrics(success, sendTime)` (lines 886-922).  `sendTime` is the
elapsed milliseconds, `now` the value of `Date.now()` on line 917. -/
def updateMetrics (m : Metrics) (success : Bool) (sendTime : Int) (now : Int) : Metrics :=
  -- counters (lines 888-896)
  let m1 := { m with emails_total := m.emails_total + 1 }
  let m2 :=
    if success then
      { m1 with emails_successful := m1.emails_successful + 1
                last_email_status := EmailStatus.success
                consecutive_failures := 0 }
    else
      { m1 with emails_failed := m1.emails_failed + 1
                last_email_status := EmailStatus.failure }
  -- timing metrics (lines 899-907)
  let s : ℚ := (sendTime : ℚ) / 1000
  let d0 := m2.email_send_duration_seconds
  let d1 := { d0 with count := d0.count + 1, sum := d0.sum + s }
  let d2 := { d1 with avg := d1.sum / (d1.count : ℚ)
                      max := max d1.max s
                      min := min d1.min s }
  -- histogram buckets (lines 910-914)
  let b := d2.buckets
  let b' : DurationBuckets :=
    { le01 := if s ≤ 1/10 then b.le01 + 1 else b.le01
      le05 := if s ≤ 1/2 then b.le05 + 1 else b.le05
      le1 := if s ≤ 1 then b.le1 + 1 else b.le1
      le2 := if s ≤ 2 then b.le2 + 1 else b.le2
      le5 := if s ≤ 5 then b.le5 + 1 else b.le5 }
  let m3 := { m2 with email_send_duration_seconds := { d2 with buckets := b' } }
  -- rate metrics (lines 917-920); the division uses the already
  -- incremented total and the previous last_email_timestamp
  { m3 with
    email_send_rate :=
      (m3.emails_total : ℚ) / (((now - m3.last_email_timestamp : Int) : ℚ) / 60000)
    last_email_timestamp := now }

/-- A sequence of completed sends: each element is
(success, sendTime ms, Date.now() at completion). -/
def runSends (m : Metrics) (sends : List (Bool × Int × Int)) : Metrics :=
  sends.foldl (fun acc p => updateMetrics acc p.1 p.2.1 p.2.2) m

/-! ## Rate-limit controller (mailer.ts lines 16-25, 44-55, 162-321)

`checkRateLimit(recipient)` mutates the recipient's entry of the
`rateLimits` map and the metrics, and either returns or throws an
`ERATELIMIT` error.  The embedding returns the final recipient state, the
final metrics, and the rejection (if any): mutations performed before a
throw persist, exactly as they do on the JavaScript map entry. -/

/-- One entry of the `rateLimits` map (lines 16-25). -/
structure RecipientLimits where
  count : Int
  lastReset : Int
  banned : Bool
  banExpiry : Int
  consecutiveFailures : Int
  lastFailure : Int
  rapidAttempts : Int
  lastAttempt : Int
deriving DecidableEq, Repr

/-- The merged `rateLimiting` configuration (lines 45-55); the constructor
guarantees every field is present. -/
structure RateLimitingConfig where
  perRecipient : Bool
  burstLimit : Int
  cooldownPeriod : Int
  banDuration : Int
  maxConsecutiveFailures : Int
  failureCooldown : Int
  maxRapidAttempts : Int
  rapidPeriod : Int
deriving DecidableEq, Repr

/-- The defaults of lines 46-53. -/
def defaultRateLimiting : RateLimitingConfig :=
  { perRecipient := true
    burstLimit := 5
    cooldownPeriod := 1000
    banDuration := 7200000
    maxConsecutiveFailures := 3
    failureCooldown := 300000
    maxRapidAttempts := 10
    rapidPeriod := 10000 }

/-- JavaScript `x || d` on a number already known to be defined:
`0` is falsy and falls back to the default. -/
def orFalsy (x d : Int) : Int :=
  if x = 0 then d else x

/-- The four `ERATELIMIT` rejections of `checkRateLimit`, in source
order: rapid-attempt ban (line 196), active ban (line 227), ban for
consecutive failures (line 267), burst limit exceeded (line 305). -/
inductive RLError
  | rapidBan
  | activeBan
  | failureBan
  | burstExceeded
deriving DecidableEq, Repr

/-- The rejection message of each `ERATELIMIT` throw. -/
def RLError.message : RLError → String
  | .rapidBan => "Too many rapid sending attempts"
  | .activeBan => "Recipient is temporarily banned due to rate limit violations or consecutive failures"
  | .failureBan => "Too many consecutive failures for recipient"
  | .burstExceeded => "Rate limit exceeded for recipient"

/-- Outcome of one `checkRateLimit` call: final map entry, final metrics,
and the rejection if the call threw. -/
structure RLResult where
  limits : RecipientLimits
  metrics : Metrics
  err : Option RLError
deriving DecidableEq, Repr

/-- Lines 286-290: reset the window count when the cooldown has passed. -/
def windowReset (cfg : RateLimitingConfig) (now : Int) (l : RecipientLimits) :
    RecipientLimits :=
  if now - l.lastReset > cfg.cooldownPeriod then
    { l with count := 0, lastReset := now }
  else
    l

/-- Lines 286-321: window reset, burst check, admission. -/
def burstStep (cfg : RateLimitingConfig) (now : Int) (l : RecipientLimits)
    (m : Metrics) : RLResult :=
  let l' := windowReset cfg now l
  if l'.count ≥ cfg.burstLimit then
    { limits := l'
      metrics :=
        { m with
          rate_limit_exceeded_total := m.rate_limit_exceeded_total + 1
          last_email_status := EmailStatus.failure
          errors_by_type :=
            { m.errors_by_type with rate_limit := m.errors_by_type.rate_limit + 1 } }
      err := some RLError.burstExceeded }
  else
    { limits := { l' with count := l'.count + 1 }, metrics := m, err := none }

/-- Lines 251-284: consecutive-failure check, then window/burst. -/
def failureStep (cfg : RateLimitingConfig) (now : Int) (l : RecipientLimits)
    (m : Metrics) : RLResult :=
  if l.consecutiveFailures ≥ cfg.maxConsecutiveFailures then
    if now - l.lastFailure < cfg.failureCooldown then
      { limits := { l with banned := true, banExpiry := now + cfg.banDuration }
        metrics :=
          { m with
            last_email_status := EmailStatus.failure
            errors_by_type :=
              { m.errors_by_type with rate_limit := m.errors_by_type.rate_limit + 1 }
            banned_recipients_count := m.banned_recipients_count + 1 }
        err := some RLError.failureBan }
    else
      burstStep cfg now { l with consecutiveFailures := 0 } m
  else
    burstStep cfg now l m

/-- Lines 215-249: active-ban check and ban-expiry reset, then failures. -/
def banStep (cfg : RateLimitingConfig) (now : Int) (l : RecipientLimits)
    (m : Metrics) : RLResult :=
  if l.banned then
    if now < l.banExpiry then
      { limits := l
        metrics :=
          { m with
            last_email_status := EmailStatus.failure
            errors_by_type :=
              { m.errors_by_type with rate_limit := m.errors_by_type.rate_limit + 1 } }
        err := some RLError.activeBan }
    else
      failureStep cfg now
        { l with banned := false, count := 0, lastReset := now
                 consecutiveFailures := 0, rapidAttempts := 0 }
        { m with banned_recipients_count := m.banned_recipients_count - 1 }
  else
    failureStep cfg now l m

/-- Lines 162-321: `checkRateLimit(recipient)` on the recipient's current
map entry (`none` on first sighting).  The rapid-attempt rejection of
line 196 throws before line 213, so it leaves `lastAttempt` untouched. -/
def checkRateLimit (cfg : RateLimitingConfig) (m : Metrics)
    (st : Option RecipientLimits) (now : Int) : RLResult :=
  let l0 := st.getD
    { count := 0, lastReset := now, banned := false, banExpiry := 0
      consecutiveFailures := 0, lastFailure := 0, rapidAttempts := 0
      lastAttempt := now }
  if now - l0.lastAttempt < orFalsy cfg.rapidPeriod 10000 then
    let l1 := { l0 with rapidAttempts := l0.rapidAttempts + 1 }
    if l1.rapidAttempts ≥ orFalsy cfg.maxRapidAttempts 10 then
      { limits := { l1 with banned := true, banExpiry := now + orFalsy cfg.banDuration 7200000 }
        metrics := { m with banned_recipients_count := m.banned_recipients_count + 1 }
        err := some RLError.rapidBan }
    else
      banStep cfg now { l1 with lastAttempt := now } m
  else
    banStep cfg now { l0 with rapidAttempts := 1, lastAttempt := now } m

/-! ## Structured logger (mailer.ts lines 583-636)

Log payloads are JavaScript object literals; they are modelled as
association lists of key/value pairs in insertion order, with property
read (`o[k]`) and assignment (`o[k] = v`) following object semantics.
`JSON.stringify` itself is not modelled: a written log line carries the
object that would be serialized. -/

inductive JsValue
  | str (s : String)
  | num (n : Int)
  | bool (b : Bool)
  | null
deriving DecidableEq, Repr

/-- JavaScript truthiness of a property value. -/
def JsValue.truthy : JsValue → Bool
  | .str s => !(s = "")
  | .num n => !(n = 0)
  | .bool b => b
  | .null => false

abbrev JsObj : Type := List (String × JsValue)

/-- Property read `o[k]`. -/
def JsObj.get : JsObj → String → Option JsValue
  | [], _ => none
  | (k', v') :: rest, k => if k' = k then some v' else JsObj.get rest k

/-- Property assignment `o[k] = v`: overwrite in place, else append. -/
def JsObj.set : JsObj → String → JsValue → JsObj
  | [], k, v => [(k, v)]
  | (k', v') :: rest, k, v =>
    if k' = k then (k, v) :: rest else (k', v') :: JsObj.set rest k v

/-- JavaScript `if (o[k])`: the property exists and is truthy. -/
def JsObj.truthyAt (o : JsObj) (k : String) : Bool :=
  match o.get k with
  | some v => v.truthy
  | none => false

/-- Line 586. -/
def sensitiveFields : List String := ["password", "auth", "token", "key"]

/-- One iteration of the loop on lines 589-593:
`if (masked[field]) masked[field] = "********"`. -/
def maskStep (masked : JsObj) (field : String) : JsObj :=
  if masked.truthyAt field then masked.set field (JsValue.str "********") else masked

/-- `maskSensitiveData` (lines 583-596) on an object payload; the shallow
copy of line 587 is the fold's starting value.  (The `if (!data)` guard of
line 584 only matters for null payloads, which `writeLog` never passes.) -/
def maskSensitiveData (data : JsObj) : JsObj :=
  sensitiveFields.foldl maskStep data

/-- The custom-fields loop of lines 615-621:
`if (data[field]) logEntry[field] = data[field]` — reading the ORIGINAL
payload, not the masked copy. -/
def applyCustomFields (customFields : List String) (data : JsObj) (entry : JsObj) : JsObj :=
  match customFields with
  | [] => entry
  | field :: rest =>
    applyCustomFields rest data
      (match data.get field with
       | some v => if v.truthy then entry.set field v else entry
       | none => entry)

/-! ## MIME composer (mailer.ts lines 420-560)

`buildMimeMessage(options, boundary)` produces the full SMTP DATA payload.
The filesystem side of the attachment branch (`sanitizePath` +
`fs.readFileSync`, lines 430-467 and 503-504) is an external collaborator
and is passed in as a function from the attachment's `path` to the
resolved absolute path and the file's bytes (`none` models any
existence/readability failure, which raises `EATTACHMENT`).  The
MIME-type table imported from `src/index` (an external collaborator, spec
section 4.2) is likewise a parameter. -/

/-- A `string | string[]` value, as used for `to`, `cc`, `bcc`. -/
inductive StrOrArr
  | single (s : String)
  | arr (l : List String)
deriving DecidableEq, Repr

/-- `Array.isArray(x) ? x : [x]` (lines 666-669). -/
def StrOrArr.toList : StrOrArr → List String
  | single s => [s]
  | arr l => l

/-- `Array.isArray(x) ? x.join(", ") : x` (lines 475, 477). -/
def StrOrArr.headerValue : StrOrArr → String
  | single s => s
  | arr l => String.intercalate ", " l

/-- JavaScript truthiness: the empty string is falsy; an array (even an
empty one) is truthy. -/
def StrOrArr.jsTruthy : StrOrArr → Bool
  | single s => !(s = "")
  | arr _ => true

/-- JavaScript truthiness of an optional string property. -/
def jsTruthyStr : Option String → Bool
  | none => false
  | some s => !(s = "")

/-- `x ? (Array.isArray(x) ? x : [x]) : []` for `cc`/`bcc` (lines 668-669). -/
def ccBccList (x : Option StrOrArr) : List String :=
  match x with
  | some v => if v.jsTruthy then v.toList else []
  | none => []

/-- An `Attachment`: `content` is a Buffer (bytes) or a string. -/
structure Attachment where
  path : Option String := none
  content : Option (Sum (List Nat) String) := none
  filename : Option String := none
  contentType : Option String := none
  encoding : Option String := none
deriving DecidableEq, Repr

/-- JavaScript truthiness of `attachment.content`: a Buffer object is
always truthy, a string only when nonempty. -/
def contentTruthy : Option (Sum (List Nat) String) → Bool
  | none => false
  | some (Sum.inl _) => true
  | some (Sum.inr s) => !(s = "")

structure MailOptions where
  «to» : StrOrArr
  subject : String
  text : Option String := none
  html : Option String := none
  attachments : Option (List Attachment) := none
  cc : Option StrOrArr := none
  bcc : Option StrOrArr := none
deriving DecidableEq, Repr

/-- `path.basename`: the part after the last separator. -/
def basename (p : String) : String :=
  ⟨(p.data.reverse.takeWhile (fun c => !(c = '/'))).reverse⟩

/-- `path.extname`: from the last dot of the basename to the end, unless
that dot is the basename's first character or there is no dot. -/
def extname (p : String) : String :=
  let b := (basename p).data
  let afterDot := b.reverse.takeWhile (fun c => !(c = '.'))
  if afterDot.length + 1 < b.length then ⟨'.' :: afterDot.reverse⟩ else ""

def toLowerString (s : String) : String :=
  ⟨s.data.map Char.toLower⟩

/-- `detectMimeType` (lines 555-560): look the lowercased extension up in
the table, defaulting to application/octet-stream on a miss (or a falsy
table entry, since the source uses a truthiness fallback). -/
def detectMimeType (mimeTypes : List (String × String)) (filename : String) : String :=
  let ext := toLowerString (extname filename)
  match mimeTypes.find? (fun p => p.1 = ext) with
  | some p => if p.2 = "" then "application/octet-stream" else p.2
  | none => "application/octet-stream"

/-- The base64 alphabet. -/
def base64Chars : List Char :=
  "ABCDEFGHIJKLMNOPQRSTUVWXYZabcdefghijklmnopqrstuvwxyz0123456789+/".data

def base64Char (n : Nat) : Char :=
  base64Chars.getD n 'A'

/-- `Buffer.toString('base64')`: standard base64 with padding. -/
def base64Encode : List Nat → List Char
  | [] => []
  | [b1] =>
    [base64Char (b1 / 4), base64Char (b1 % 4 * 16), '=', '=']
  | [b1, b2] =>
    [base64Char (b1 / 4), base64Char (b1 % 4 * 16 + b2 / 16),
     base64Char (b2 % 16 * 4), '=']
  | b1 :: b2 :: b3 :: rest =>
    base64Char (b1 / 4) :: base64Char (b1 % 4 * 16 + b2 / 16) ::
    base64Char (b2 % 16 * 4 + b3 / 64) :: base64Char (b3 % 64) ::
    base64Encode rest

/-- The `EATTACHMENT` throw of lines 519-530. -/
inductive MimeError
  | attachmentError (path : String)
deriving DecidableEq, Repr

instance {ε α : Type} [DecidableEq ε] [DecidableEq α] : DecidableEq (Except ε α) :=
  fun a b =>
    match a, b with
    | Except.ok x, Except.ok y =>
      if h : x = y then Decidable.isTrue (congrArg Except.ok h)
      else Decidable.isFalse (fun he => h (Except.ok.inj he))
    | Except.error x, Except.error y =>
      if h : x = y then Decidable.isTrue (congrArg Except.error h)
      else Decidable.isFalse (fun he => h (Except.error.inj he))
    | Except.ok _, Except.error _ => Decidable.isFalse (fun he => Except.noConfusion he)
    | Except.error _, Except.ok _ => Decidable.isFalse (fun he => Except.noConfusion he)

/-- The `From` header value of line 474. -/
def fromHeaderValue (fromAddr : String) : String :=
  sanitizeHeader fromAddr

/-- The `To` header value of line 475. -/
def toHeaderValue (toAddrs : StrOrArr) : String :=
  sanitizeHeader toAddrs.headerValue

/-- The `Cc` header value of line 477 — emitted WITHOUT `sanitizeHeader`,
unlike From, To and Subject. -/
def ccHeaderValue (cc : StrOrArr) : String :=
  cc.headerValue

/-- The `Subject` header value of line 479. -/
def subjectHeaderValue (subject : String) : String :=
  sanitizeHeader subject

/-- The header block of lines 472-480. -/
def mimeHeaders (fromAddr : String) (options : MailOptions) (boundary : String) : String :=
  "MIME-Version: 1.0\r\n" ++
  "From: " ++ fromHeaderValue fromAddr ++ "\r\n" ++
  "To: " ++ toHeaderValue options.«to» ++ "\r\n" ++
  (match options.cc with
   | some cc => if cc.jsTruthy then "Cc: " ++ ccHeaderValue cc ++ "\r\n" else ""
   | none => "") ++
  "Subject: " ++ subjectHeaderValue options.subject ++ "\r\n" ++
  "Content-Type: multipart/mixed; boundary=\"" ++ boundary ++ "\"\r\n\r\n"

/-- The text and html parts of lines 483-493 (`if (options.text)` and
`if (options.html)` are truthiness checks). -/
def mimeBodyParts (options : MailOptions) (boundary : String) : String :=
  (match options.text with
   | some t =>
     if t = "" then ""
     else "--" ++ boundary ++ "\r\nContent-Type: text/plain; charset=utf-8\r\n\r\n" ++
       t ++ "\r\n\r\n"
   | none => "") ++
  (match options.html with
   | some h =>
     if h = "" then ""
     else "--" ++ boundary ++ "\r\nContent-Type: text/html; charset=utf-8\r\n\r\n" ++
       h ++ "\r\n\r\n"
   | none => "")

/-- One attachment part (lines 497-548); `Except.ok none` models the
`continue` of line 538 for an entry with neither path nor content. -/
def attachmentBlock (mimeTypes : List (String × String))
    (fs : String → Option (String × List Nat)) (boundary : String)
    (a : Attachment) : Except MimeError (Option String) :=
  if jsTruthyStr a.path then
    match fs (a.path.getD "") with
    | none => Except.error (MimeError.attachmentError (a.path.getD ""))
    | some (filePath, content) =>
      let filename :=
        if !jsTruthyStr a.filename then basename filePath
        else
          let fn := a.filename.getD ""
          if !(extname fn = "") then fn else fn ++ extname filePath
      let contentType :=
        if jsTruthyStr a.contentType then a.contentType.getD ""
        else detectMimeType mimeTypes filename
      let encoding := if jsTruthyStr a.encoding then a.encoding.getD "" else "base64"
      Except.ok (some
        ("--" ++ boundary ++ "\r\n" ++
         "Content-Type: " ++ contentType ++ "\r\n" ++
         "Content-Disposition: attachment; filename=\"" ++ filename ++ "\"\r\n" ++
         "Content-Transfer-Encoding: " ++ encoding ++ "\r\n\r\n" ++
         (⟨base64Encode content⟩ : String) ++ "\r\n\r\n"))
  else if contentTruthy a.content then
    let content :=
      match a.content with
      | some (Sum.inl bytes) => bytes
      | some (Sum.inr s) => s.toUTF8.toList.map UInt8.toNat
      | none => []
    let filename := if jsTruthyStr a.filename then a.filename.getD "" else "attachment"
    let contentType :=
      if jsTruthyStr a.contentType then a.contentType.getD ""
      else detectMimeType mimeTypes filename
    let encoding := if jsTruthyStr a.encoding then a.encoding.getD "" else "base64"
    Except.ok (some
      ("--" ++ boundary ++ "\r\n" ++
       "Content-Type: " ++ contentType ++ "\r\n" ++
       "Content-Disposition: attachment; filename=\"" ++ filename ++ "\"\r\n" ++
       "Content-Transfer-Encoding: " ++ encoding ++ "\r\n\r\n" ++
       (⟨base64Encode content⟩ : String) ++ "\r\n\r\n"))
  else
    Except.ok none

/-- The attachments loop of lines 496-549. -/
def attachmentsPart (mimeTypes : List (String × String))
    (fs : String → Option (String × List Nat)) (boundary : String) :
    List Attachment → Except MimeError String
  | [] => Except.ok ""
  | a :: rest => do
    let blk ← attachmentBlock mimeTypes fs boundary a
    let restStr ← attachmentsPart mimeTypes fs boundary rest
    Except.ok ((blk.getD "") ++ restStr)

/-- `buildMimeMessage(options, boundary)` (lines 469-553).  The metric
mutations performed at the `EATTACHMENT` throw site (lines 517-518) are
applied by the caller model where the error is observed. -/
def buildMimeMessage (fromAddr : String) (mimeTypes : List (String × String))
    (fs : String → Option (String × List Nat)) (options : MailOptions)
    (boundary : String) : Except MimeError String :=
  (match options.attachments with
   | some l => attachmentsPart mimeTypes fs boundary l
   | none => Except.ok "").map
    (fun attStr =>
      mimeHeaders fromAddr options boundary ++
      (mimeBodyParts options boundary ++
       (attStr ++ ("--" ++ (boundary ++ "--\r\n.")))))

/-- What one `writeLog` call appends to the log file: a JSON line
(serialized `logEntry`) or a text line (serialized `maskedData`). -/
inductive WrittenLog
  | jsonLine (entry : JsObj)
  | textLine (timestamp level : String) (masked : JsObj)
deriving DecidableEq, Repr

structure LoggingConfig where
  level : Option String
  format : String
  customFields : List String
  /-- whether `logFilePath` was set up successfully in the constructor -/
  hasDestination : Bool
deriving DecidableEq, Repr

/-- `writeLog(level, data)` (lines 598-636). -/
def writeLog (cfg : LoggingConfig) (timestamp level : String) (data : JsObj) :
    Option WrittenLog :=
  if !cfg.hasDestination || !shouldLog cfg.level level then
    none
  else
    let maskedData := maskSensitiveData data
    -- logEntry = (timestamp, level, ...maskedData): spread assigns the
    -- masked entries over the two fixed keys in insertion order
    let base : JsObj := [("timestamp", JsValue.str timestamp), ("level", JsValue.str level)]
    let spread := maskedData.foldl (fun e p => e.set p.1 p.2) base
    let entry := applyCustomFields cfg.customFields data spread
    if cfg.format = "text" then
      some (WrittenLog.textLine timestamp level maskedData)
    else
      some (WrittenLog.jsonLine entry)

/-! ## Mailer facade: `sendMail` / `verifyConnection` (mailer.ts 323-387, 638-884, 928-938)

The socket layer is embedded by injecting each connection attempt's
outcome.  `writeLog` calls inside `sendMail` touch neither the metrics nor
the rate-limit map and are not repeated here.  A single clock value
`env.now` stands for the `Date.now()` readings of one call. -/

/-- Outcome of one `createConnection` attempt: connected, the `timeout`
event fired, or the `error` event fired. -/
inductive ConnOutcome
  | ok
  | timeoutErr
  | socketErr
deriving DecidableEq, Repr

/-- An error record as thrown/rejected: `code`, `message` and
`details.type`. -/
structure ErrInfo where
  code : String
  message : String
  etype : String
deriving DecidableEq, Repr

/-- `createConnection` (lines 323-387): on connect, `active_connections`
is incremented (and, if `secure`, the socket is wrapped in TLS — no
metric effect); the timeout and error handlers update the metrics and
reject. -/
def createConnection (outcome : ConnOutcome) (m : Metrics) : Metrics × Except ErrInfo Unit :=
  match outcome with
  | ConnOutcome.ok =>
    ({ m with active_connections := m.active_connections + 1 }, Except.ok ())
  | ConnOutcome.timeoutErr =>
    ({ m with
       connection_errors := m.connection_errors + 1
       last_email_status := EmailStatus.failure
       errors_by_type := { m.errors_by_type with timeout := m.errors_by_type.timeout + 1 } },
     Except.error
       { code := "ETIMEDOUT", message := "Connection timeout", etype := "connection_error" })
  | ConnOutcome.socketErr =>
    ({ m with
       connection_errors := m.connection_errors + 1
       last_email_status := EmailStatus.failure
       errors_by_type := { m.errors_by_type with connection := m.errors_by_type.connection + 1 } },
     Except.error
       { code := "ECONNECTION", message := "socket error", etype := "connection_error" })

/-- `verifyConnection` (lines 928-938): open a probe socket, `end()` it
(without decrementing `active_connections`), return `true`; on failure
return `false` after recording the failure. -/
def verifyConnection (outcome : ConnOutcome) (m : Metrics) : Metrics × Bool :=
  match createConnection outcome m with
  | (m', Except.ok _) => (m', true)
  | (m', Except.error _) =>
    ({ m' with
       last_email_status := EmailStatus.failure
       errors_by_type := { m'.errors_by_type with connection := m'.errors_by_type.connection + 1 } },
     false)

/-- JavaScript `Map.get`. -/
def getKey {α : Type} : List (String × α) → String → Option α
  | [], _ => none
  | (k', v) :: rest, k => if k' = k then some v else getKey rest k

/-- JavaScript `Map.set`: overwrite in place, else append. -/
def setKey {α : Type} : List (String × α) → String → α → List (String × α)
  | [], k, v => [(k, v)]
  | (k', v') :: rest, k, v =>
    if k' = k then (k, v) :: rest else (k', v') :: setKey rest k v

/-- The mutable instance state a `sendMail` call touches. -/
structure MailerState where
  metrics : Metrics
  rateLimits : List (String × RecipientLimits)
deriving DecidableEq, Repr

/-- The merged constructor configuration (lines 32-63), restricted to the
fields the transaction path reads. -/
structure MailerConfig where
  host : String
  port : Int
  secure : Bool
  fromAddr : String
  authUser : String
  authPass : String
  keepAlive : Bool
  rateLimiting : RateLimitingConfig
deriving DecidableEq, Repr

/-- Environment of one `sendMail` call: the outcome of the probe
connection and of the transaction connection, whether some
`sendCommand` socket write fails, the attachment filesystem, the
MIME-type table, the generated boundary, the clock, and the measured
send time. -/
structure SendEnv where
  probeOutcome : ConnOutcome
  txOutcome : ConnOutcome
  cmdWriteFail : Bool
  fs : String → Option (String × List Nat)
  mimeTypes : List (String × String)
  boundary : String
  now : Int
  sendTime : Int

/-- Observable outcome of one `sendMail` call.  `socketsOpened` counts
the sockets that successfully connected during the call (the
`verifyConnection` probe and the transaction socket);
`txSocketOpened` is whether the SMTP transaction's own socket
connected. -/
structure SendOutcome where
  result : Except ErrInfo String
  state : MailerState
  socketsOpened : Nat
  txSocketOpened : Bool

/-- `recipients` assembly of lines 666-670: To then Cc then Bcc. -/
def recipientsOf (options : MailOptions) : List String :=
  options.«to».toList ++ ccBccList options.cc ++ ccBccList options.bcc

/-- The rate-limit loop of lines 692-696: `checkRateLimit` per recipient
in order, stopping at the first rejection; mutations made before a throw
stay in the map. -/
def runRateLimits (cfg : RateLimitingConfig) :
    List String → MailerState → Int → MailerState × Option RLError
  | [], st, _ => (st, none)
  | r :: rest, st, now =>
    let res := checkRateLimit cfg st.metrics (getKey st.rateLimits r) now
    let st' : MailerState :=
      { metrics := res.metrics, rateLimits := setKey st.rateLimits r res.limits }
    match res.err with
    | some e => (st', some e)
    | none => runRateLimits cfg rest st' now

/-- The `finally` branch (lines 878-883): if a socket exists and
`keepAlive` is false, `end()` it and decrement `active_connections`. -/
def finallyClose (cfg : MailerConfig) (st : MailerState) : MailerState :=
  if cfg.keepAlive then st
  else
    { st with metrics :=
      { st.metrics with active_connections := st.metrics.active_connections - 1 } }

/-- The `catch` branch of lines 772-877: failure ledger, per-recipient
failure counts, average, consecutive-failure bumps, `updateMetrics`,
status/error counters, and the enriched error that is rethrown. -/
def catchBranch (cfg : MailerConfig) (env : SendEnv) (st : MailerState)
    (recipients : List String) (options : MailOptions) (currentCommand : String)
    (e : ErrInfo) : MailerState × ErrInfo :=
  let m := st.metrics
  let record : FailureRecord :=
    { recipient := String.intercalate ", " recipients
      subject := options.subject
      errorCode := e.code
      command := currentCommand }
  let m := { m with
    failed_emails := m.failed_emails ++ [record]
    failure_details := { m.failure_details with last_error := some record } }
  let counts := recipients.foldl
    (fun cmap r => setKey cmap r ((getKey cmap r).getD 0 + 1))
    m.failure_details.error_count_by_recipient
  let totalRecipients : Nat := counts.length
  let totalFailures : Nat := (counts.map Prod.snd).foldl (fun a b => a + b) 0
  let m := { m with failure_details :=
    { m.failure_details with
      error_count_by_recipient := counts
      avg_failures_per_recipient :=
        if totalRecipients = 0 then 0
        else (totalFailures : ℚ) / (totalRecipients : ℚ) } }
  let rl :=
    if cfg.rateLimiting.perRecipient then
      recipients.foldl
        (fun rlm r =>
          match getKey rlm r with
          | some limits =>
            setKey rlm r
              { limits with
                consecutiveFailures := limits.consecutiveFailures + 1
                lastFailure := env.now }
          | none => rlm)
        st.rateLimits
    else st.rateLimits
  let m := updateMetrics m false env.sendTime env.now
  let m := { m with
    last_email_status := EmailStatus.failure
    consecutive_failures := m.consecutive_failures + 1
    last_error_timestamp := some env.now }
  let ebt := m.errors_by_type
  let ebt' :=
    if e.etype = "" then { ebt with unknown := ebt.unknown + 1 }
    else if e.etype = "connection_error" then { ebt with connection := ebt.connection + 1 }
    else if e.etype = "authentication_error" then
      { ebt with authentication := ebt.authentication + 1 }
    else if e.etype = "rate_limit_error" then { ebt with rate_limit := ebt.rate_limit + 1 }
    else if e.etype = "validation_error" then { ebt with validation := ebt.validation + 1 }
    else if e.etype = "timeout_error" then { ebt with timeout := ebt.timeout + 1 }
    else if e.etype = "attachment_error" then { ebt with attachment := ebt.attachment + 1 }
    else if e.etype = "command_error" then { ebt with command := ebt.command + 1 }
    else { ebt with unknown := ebt.unknown + 1 }
  let m := { m with errors_by_type := ebt' }
  let errorDetails : ErrInfo :=
    { code := if e.code = "" then "EUNKNOWN" else e.code
      message := if e.message = "" then "An unknown error occurred" else e.message
      etype := if e.etype = "" then "smtp_error" else e.etype }
  ({ metrics := m, rateLimits := rl }, errorDetails)

/-- The `try` block of lines 698-883, entered after a successful probe
(`socketsOpened` therefore counts the probe socket plus the transaction
socket).  A `sendCommand` write failure is represented at the first
command; no claim depends on which command fails. -/
def runTransaction (cfg : MailerConfig) (env : SendEnv) (st : MailerState)
    (options : MailOptions) (recipients : List String) : SendOutcome :=
  match createConnection env.txOutcome st.metrics with
  | (m, Except.error e) =>
    -- `socket` was never assigned: the finally branch does not run `end()`
    let ce := catchBranch cfg env { st with metrics := m } recipients options "" e
    { result := Except.error ce.2, state := ce.1
      socketsOpened := 1, txSocketOpened := false }
  | (m, Except.ok _) =>
    if env.cmdWriteFail then
      let m := { m with
        last_email_status := EmailStatus.failure
        errors_by_type := { m.errors_by_type with command := m.errors_by_type.command + 1 } }
      let ce := catchBranch cfg env { st with metrics := m } recipients options "EHLO"
        { code := "ECOMMAND", message := "Failed to send command", etype := "command_error" }
      { result := Except.error ce.2, state := finallyClose cfg ce.1
        socketsOpened := 2, txSocketOpened := true }
    else
      match buildMimeMessage cfg.fromAddr env.mimeTypes env.fs options env.boundary with
      | Except.error _ =>
        let m := { m with
          last_email_status := EmailStatus.failure
          errors_by_type :=
            { m.errors_by_type with attachment := m.errors_by_type.attachment + 1 } }
        let ce := catchBranch cfg env { st with metrics := m } recipients options "DATA"
          { code := "EATTACHMENT", message := "Failed to read attachment file"
            etype := "attachment_error" }
        { result := Except.error ce.2, state := finallyClose cfg ce.1
          socketsOpened := 2, txSocketOpened := true }
      | Except.ok _ =>
        -- success: reset consecutive failures (744-751), then metrics (753)
        let rl :=
          if cfg.rateLimiting.perRecipient then
            recipients.foldl
              (fun rlm r =>
                match getKey rlm r with
                | some limits => setKey rlm r { limits with consecutiveFailures := 0 }
                | none => rlm)
              st.rateLimits
          else st.rateLimits
        let m := updateMetrics m true env.sendTime env.now
        { result := Except.ok (String.intercalate ", " recipients)
          state := finallyClose cfg { metrics := m, rateLimits := rl }
          socketsOpened := 2, txSocketOpened := true }

/-- `sendMail(options)` (lines 638-884). -/
def sendMail (cfg : MailerConfig) (env : SendEnv) (st : MailerState)
    (options : MailOptions) : SendOutcome :=
  -- line 640: debug log of the attempt (no metric or map effect)
  -- lines 647-664: verifyConnection probe before anything else
  let pr := verifyConnection env.probeOutcome st.metrics
  if !pr.2 then
    { result := Except.error
        { code := "ECONNECTION", message := "SMTP connection failed, cannot send email"
          etype := "connection_error" }
      state := { st with metrics :=
        { pr.1 with
          last_email_status := EmailStatus.failure
          errors_by_type :=
            { pr.1.errors_by_type with connection := pr.1.errors_by_type.connection + 1 } } }
      socketsOpened := 0
      txSocketOpened := false }
  else
    -- lines 666-670: recipients; lines 672-689: validation
    match (recipientsOf options).find? (fun r => !validateEmail r) with
    | some r =>
      { result := Except.error
          { code := "EINVALIDEMAIL", message := "Invalid email format: " ++ r
            etype := "validation_error" }
        state := { st with metrics :=
          { pr.1 with
            last_email_status := EmailStatus.failure
            errors_by_type :=
              { pr.1.errors_by_type with validation := pr.1.errors_by_type.validation + 1 } } }
        socketsOpened := 1
        txSocketOpened := false }
    | none =>
      -- lines 691-696: rate limits (throws before the try block)
      let rlRes :=
        if cfg.rateLimiting.perRecipient then
          runRateLimits cfg.rateLimiting (recipientsOf options)
            { st with metrics := pr.1 } env.now
        else ({ st with metrics := pr.1 }, none)
      match rlRes.2 with
      | some e =>
        { result := Except.error
            { code := "ERATELIMIT", message := e.message, etype := "rate_limit_error" }
          state := rlRes.1
          socketsOpened := 1
          txSocketOpened := false }
      | none => runTransaction cfg env rlRes.1 options (recipientsOf options)

end FastMailer

namespace FastMailer

theorem sanitizeHeader_idem (x : String) :
    sanitizeHeader (sanitizeHeader x) = sanitizeHeader x := by
  show (⟨(x.data.filter _).filter _⟩ : String) = ⟨x.data.filter _⟩
  rw [List.filter_filter]
  congr 1
  apply List.filter_congr
  intro c _
  cases h : isForbiddenHeaderChar c <;> simp [h]

theorem sanitizeHeader_clean (x : String) :
    containsForbiddenHeaderChar (sanitizeHeader x) = false := by
  show (x.data.filter _).any isForbiddenHeaderChar = false
  rw [List.any_eq_false]
  intro c hc
  have := List.of_mem_filter hc
  simpa using this

/-- **C6.** The header sanitizer is idempotent, and its output never
contains CR, LF, TAB, VT or FF. -/
theorem sanitizeHeader_idempotent_and_clean (x : String) :
    sanitizeHeader (sanitizeHeader x) = sanitizeHeader x ∧
    containsForbiddenHeaderChar (sanitizeHeader x) = false :=
  ⟨sanitizeHeader_idem x, sanitizeHeader_clean x⟩

/-- **C7.** The address validator rejects "", "a b@c.d", "a..b@c.d",
".a@c.d", "a.@c.d", "a@@c.d", "notanemail" and accepts "a@b.co",
"a.b@c.d.e", "a+b@c.d". -/
theorem validateEmail_examples :
    validateEmail "" = false ∧
    validateEmail "a b@c.d" = false ∧
    validateEmail "a..b@c.d" = false ∧
    validateEmail ".a@c.d" = false ∧
    validateEmail "a.@c.d" = false ∧
    validateEmail "a@@c.d" = false ∧
    validateEmail "notanemail" = false ∧
    validateEmail "a@b.co" = true ∧
    validateEmail "a.b@c.d.e" = true ∧
    validateEmail "a+b@c.d" = true := by
  decide

/-- **C8.** The log level filter is a strict equality check, not a floor:
a `debug` configuration logs every level, while `info`, `warn` and `error`
configurations log only their own level; in particular a `warn`
configuration suppresses `error`-level messages. -/
theorem shouldLog_equality_filter (lvl : String) :
    shouldLog (some "debug") lvl = true ∧
    shouldLog (some "info") lvl = (lvl == "info") ∧
    shouldLog (some "warn") lvl = (lvl == "warn") ∧
    shouldLog (some "error") lvl = (lvl == "error") ∧
    shouldLog (some "warn") "error" = false := by
  refine ⟨rfl, rfl, rfl, rfl, rfl⟩

/-! ### Helper lemmas about the rate-limit steps -/

theorem burstStep_lastAttempt (cfg : RateLimitingConfig) (now : Int)
    (l : RecipientLimits) (m : Metrics) :
    (burstStep cfg now l m).limits.lastAttempt = l.lastAttempt := by
  simp only [burstStep, windowReset]
  split_ifs <;> rfl

theorem failureStep_lastAttempt (cfg : RateLimitingConfig) (now : Int)
    (l : RecipientLimits) (m : Metrics) :
    (failureStep cfg now l m).limits.lastAttempt = l.lastAttempt := by
  simp only [failureStep]
  split_ifs <;> first
  | rfl
  | rw [burstStep_lastAttempt]

theorem banStep_lastAttempt (cfg : RateLimitingConfig) (now : Int)
    (l : RecipientLimits) (m : Metrics) :
    (banStep cfg now l m).limits.lastAttempt = l.lastAttempt := by
  simp only [banStep]
  split_ifs <;> first
  | rfl
  | rw [failureStep_lastAttempt]

theorem burstStep_admitted (cfg : RateLimitingConfig) (now : Int)
    (l : RecipientLimits) (m : Metrics)
    (h : (burstStep cfg now l m).err = none) :
    (burstStep cfg now l m).limits.count ≤ cfg.burstLimit ∧
    (burstStep cfg now l m).limits.banned = l.banned := by
  simp only [burstStep, windowReset] at *
  split_ifs at h ⊢ <;> simp_all <;> omega

theorem failureStep_admitted (cfg : RateLimitingConfig) (now : Int)
    (l : RecipientLimits) (m : Metrics)
    (h : (failureStep cfg now l m).err = none) :
    (failureStep cfg now l m).limits.count ≤ cfg.burstLimit ∧
    (failureStep cfg now l m).limits.banned = l.banned := by
  unfold failureStep at h ⊢
  split_ifs at h ⊢ with hf hc
  · exact burstStep_admitted cfg now _ _ h
  · exact burstStep_admitted cfg now _ _ h

theorem banStep_admitted (cfg : RateLimitingConfig) (now : Int)
    (l : RecipientLimits) (m : Metrics)
    (h : (banStep cfg now l m).err = none) :
    (banStep cfg now l m).limits.count ≤ cfg.burstLimit ∧
    (banStep cfg now l m).limits.banned = false := by
  unfold banStep at h ⊢
  split_ifs at h ⊢ with h1 h2
  · have h3 := failureStep_admitted cfg now _ _ h
    exact ⟨h3.1, h3.2⟩
  · have h3 := failureStep_admitted cfg now l m h
    simp only [Bool.not_eq_true] at h1
    exact ⟨h3.1, h3.2.trans h1⟩

/-! ### Helper lemmas about `updateMetrics` -/

theorem updateMetrics_emails_total (m : Metrics) (success : Bool) (sendTime now : Int) :
    (updateMetrics m success sendTime now).emails_total = m.emails_total + 1 := by
  cases success <;> rfl

theorem updateMetrics_emails_successful (m : Metrics) (success : Bool) (sendTime now : Int) :
    (updateMetrics m success sendTime now).emails_successful =
      m.emails_successful + (if success then 1 else 0) := by
  cases success <;> rfl

theorem updateMetrics_emails_failed (m : Metrics) (success : Bool) (sendTime now : Int) :
    (updateMetrics m success sendTime now).emails_failed =
      m.emails_failed + (if success then 0 else 1) := by
  cases success <;> rfl

theorem updateMetrics_status (m : Metrics) (success : Bool) (sendTime now : Int) :
    (updateMetrics m success sendTime now).last_email_status =
      (if success then EmailStatus.success else EmailStatus.failure) := by
  cases success <;> rfl

theorem updateMetrics_consecutive (m : Metrics) (success : Bool) (sendTime now : Int) :
    (updateMetrics m success sendTime now).consecutive_failures =
      (if success then 0 else m.consecutive_failures) := by
  cases success <;> rfl

theorem updateMetrics_duration_count (m : Metrics) (success : Bool) (sendTime now : Int) :
    (updateMetrics m success sendTime now).email_send_duration_seconds.count =
      m.email_send_duration_seconds.count + 1 := by
  cases success <;> rfl

theorem updateMetrics_buckets (m : Metrics) (success : Bool) (sendTime now : Int) :
    (updateMetrics m success sendTime now).email_send_duration_seconds.buckets =
      (let s : ℚ := (sendTime : ℚ) / 1000
       let b := m.email_send_duration_seconds.buckets
       { le01 := b.le01 + (if s ≤ 1/10 then 1 else 0)
         le05 := b.le05 + (if s ≤ 1/2 then 1 else 0)
         le1 := b.le1 + (if s ≤ 1 then 1 else 0)
         le2 := b.le2 + (if s ≤ 2 then 1 else 0)
         le5 := b.le5 + (if s ≤ 5 then 1 else 0) : DurationBuckets }) := by
  cases success <;> simp only [updateMetrics] <;> split_ifs <;> simp_all

theorem runSends_cons (m : Metrics) (p : Bool × Int × Int) (rest : List (Bool × Int × Int)) :
    runSends m (p :: rest) = runSends (updateMetrics m p.1 p.2.1 p.2.2) rest := rfl

theorem runSends_total_balance (sends : List (Bool × Int × Int)) :
    ∀ m : Metrics, m.emails_total = m.emails_successful + m.emails_failed →
      (runSends m sends).emails_total =
        (runSends m sends).emails_successful + (runSends m sends).emails_failed := by
  induction sends with
  | nil => intro m h; exact h
  | cons p rest ih =>
    intro m h
    rw [runSends_cons]
    refine ih _ ?_
    rw [updateMetrics_emails_total, updateMetrics_emails_successful,
      updateMetrics_emails_failed]
    cases p.1 <;> simp <;> omega

theorem runSends_bucket_mono (f : Metrics → Nat)
    (hf : ∀ m success sendTime now, f m ≤ f (updateMetrics m success sendTime now))
    (sends : List (Bool × Int × Int)) :
    ∀ m : Metrics, f m ≤ f (runSends m sends) := by
  induction sends with
  | nil => intro m; exact Nat.le_refl _
  | cons p rest ih =>
    intro m
    rw [runSends_cons]
    exact Nat.le_trans (hf m p.1 p.2.1 p.2.2) (ih _)

theorem runSends_le5_le_count (sends : List (Bool × Int × Int)) :
    ∀ m : Metrics,
      m.email_send_duration_seconds.buckets.le5 ≤ m.email_send_duration_seconds.count →
      (runSends m sends).email_send_duration_seconds.buckets.le5 ≤
        (runSends m sends).email_send_duration_seconds.count := by
  induction sends with
  | nil => intro m h; exact h
  | cons p rest ih =>
    intro m h
    rw [runSends_cons]
    refine ih _ ?_
    rw [updateMetrics_duration_count, updateMetrics_buckets]
    simp only []
    split <;> omega

/-- **C5.** Every call to `updateMetrics` increments `emails_total` and
exactly one of `emails_successful` (on success, also setting the status to
success and clearing `consecutive_failures`) or `emails_failed` (on
failure, setting the status to failure); consequently after any sequence
of completed sends starting from the constructor's metrics,
`emails_total = emails_successful + emails_failed`. -/
theorem updateMetrics_send_accounting :
    (∀ (m : Metrics) (success : Bool) (sendTime now : Int),
      (updateMetrics m success sendTime now).emails_total = m.emails_total + 1 ∧
      (updateMetrics m success sendTime now).emails_successful =
        m.emails_successful + (if success then 1 else 0) ∧
      (updateMetrics m success sendTime now).emails_failed =
        m.emails_failed + (if success then 0 else 1) ∧
      (updateMetrics m success sendTime now).last_email_status =
        (if success then EmailStatus.success else EmailStatus.failure) ∧
      (updateMetrics m success sendTime now).consecutive_failures =
        (if success then 0 else m.consecutive_failures)) ∧
    (∀ (t0 burstLimit cooldownPeriod : Int) (sends : List (Bool × Int × Int)),
      (runSends (initialMetrics t0 burstLimit cooldownPeriod) sends).emails_total =
        (runSends (initialMetrics t0 burstLimit cooldownPeriod) sends).emails_successful +
        (runSends (initialMetrics t0 burstLimit cooldownPeriod) sends).emails_failed) := by
  constructor
  · intro m success sendTime now
    exact ⟨updateMetrics_emails_total m success sendTime now,
      updateMetrics_emails_successful m success sendTime now,
      updateMetrics_emails_failed m success sendTime now,
      updateMetrics_status m success sendTime now,
      updateMetrics_consecutive m success sendTime now⟩
  · intro t0 bl cp sends
    exact runSends_total_balance sends _ rfl

/-- **C9.** Histogram buckets are cumulative and consistent: each
`updateMetrics` call with duration `s = sendTime/1000` seconds increments
`buckets[b]` for every cutoff `b` in 0.1, 0.5, 1, 2, 5 with `s ≤ b`; hence
every bucket is monotone non-decreasing over any sequence of sends, and
`buckets[5] ≤ email_send_duration_seconds.count` holds after any sequence
of sends starting from the constructor's metrics. -/
theorem histogram_buckets_cumulative :
    (∀ (m : Metrics) (success : Bool) (sendTime now : Int),
      (updateMetrics m success sendTime now).email_send_duration_seconds.buckets =
        (let s : ℚ := (sendTime : ℚ) / 1000
         let b := m.email_send_duration_seconds.buckets
         { le01 := b.le01 + (if s ≤ 1/10 then 1 else 0)
           le05 := b.le05 + (if s ≤ 1/2 then 1 else 0)
           le1 := b.le1 + (if s ≤ 1 then 1 else 0)
           le2 := b.le2 + (if s ≤ 2 then 1 else 0)
           le5 := b.le5 + (if s ≤ 5 then 1 else 0) : DurationBuckets })) ∧
    (∀ (sends : List (Bool × Int × Int)) (m : Metrics),
      m.email_send_duration_seconds.buckets.le01 ≤
        (runSends m sends).email_send_duration_seconds.buckets.le01 ∧
      m.email_send_duration_seconds.buckets.le05 ≤
        (runSends m sends).email_send_duration_seconds.buckets.le05 ∧
      m.email_send_duration_seconds.buckets.le1 ≤
        (runSends m sends).email_send_duration_seconds.buckets.le1 ∧
      m.email_send_duration_seconds.buckets.le2 ≤
        (runSends m sends).email_send_duration_seconds.buckets.le2 ∧
      m.email_send_duration_seconds.buckets.le5 ≤
        (runSends m sends).email_send_duration_seconds.buckets.le5) ∧
    (∀ (t0 burstLimit cooldownPeriod : Int) (sends : List (Bool × Int × Int)),
      (runSends (initialMetrics t0 burstLimit cooldownPeriod)
          sends).email_send_duration_seconds.buckets.le5 ≤
        (runSends (initialMetrics t0 burstLimit cooldownPeriod)
          sends).email_send_duration_seconds.count) := by
  refine ⟨updateMetrics_buckets, ?_, ?_⟩
  · intro sends m
    have h01 := runSends_bucket_mono
      (fun x => x.email_send_duration_seconds.buckets.le01) ?_ sends m
    have h05 := runSends_bucket_mono
      (fun x => x.email_send_duration_seconds.buckets.le05) ?_ sends m
    have h1 := runSends_bucket_mono
      (fun x => x.email_send_duration_seconds.buckets.le1) ?_ sends m
    have h2 := runSends_bucket_mono
      (fun x => x.email_send_duration_seconds.buckets.le2) ?_ sends m
    have h5 := runSends_bucket_mono
      (fun x => x.email_send_duration_seconds.buckets.le5) ?_ sends m
    · exact ⟨h01, h05, h1, h2, h5⟩
    all_goals
      intro m' success sendTime now
      dsimp only
      rw [updateMetrics_buckets]
      simp only []
      split <;> omega
  · intro t0 bl cp sends
    exact runSends_le5_le_count sends _ (Nat.le_refl 0)

/-- **C3.** Whenever `checkRateLimit` returns without throwing, the
recipient's count is at most `burstLimit` and the recipient is not banned
(so in particular not banned with an unexpired ban) after the call. -/
theorem checkRateLimit_admission (cfg : RateLimitingConfig) (m : Metrics)
    (st : Option RecipientLimits) (now : Int)
    (h : (checkRateLimit cfg m st now).err = none) :
    (checkRateLimit cfg m st now).limits.count ≤ cfg.burstLimit ∧
    ((checkRateLimit cfg m st now).limits.banned = false ∨
      now ≥ (checkRateLimit cfg m st now).limits.banExpiry) := by
  simp only [checkRateLimit] at h ⊢
  split_ifs at h ⊢ with h1 h2
  · have h3 := banStep_admitted cfg now _ _ h
    exact ⟨h3.1, Or.inl h3.2⟩
  · have h3 := banStep_admitted cfg now _ _ h
    exact ⟨h3.1, Or.inl h3.2⟩

/-- Witness for C3: the very first call for a fresh recipient at time 0
with the default configuration is admitted with count 1 and no ban. -/
theorem checkRateLimit_admission_witness :
    (checkRateLimit defaultRateLimiting (initialMetrics 0 5 1000) none 0).err = none ∧
    ((checkRateLimit defaultRateLimiting (initialMetrics 0 5 1000) none 0).limits.count ≤
        defaultRateLimiting.burstLimit ∧
      ((checkRateLimit defaultRateLimiting (initialMetrics 0 5 1000) none 0).limits.banned
          = false ∨
        (0 : Int) ≥
          (checkRateLimit defaultRateLimiting (initialMetrics 0 5 1000)
            none 0).limits.banExpiry)) :=
  ⟨by decide,
   checkRateLimit_admission defaultRateLimiting (initialMetrics 0 5 1000) none 0 (by decide)⟩

/-- **C4 counterexample.** The rapid-attempt ban (line 196) throws before
line 213 runs, so `lastAttempt` keeps its old value: a recipient with 9
prior rapid attempts at `lastAttempt = 0`, checked again at `now = 1`
under the default configuration, is rejected with the rapid ban and its
`lastAttempt` remains 0, not 1 — refuting "lastAttempt equals now after
the call, whether the call returns or throws". -/
theorem checkRateLimit_lastAttempt_counterexample :
    (checkRateLimit defaultRateLimiting (initialMetrics 0 5 1000)
        (some { count := 0, lastReset := 0, banned := false, banExpiry := 0
                consecutiveFailures := 0, lastFailure := 0, rapidAttempts := 9
                lastAttempt := 0 }) 1).err = some RLError.rapidBan ∧
    (checkRateLimit defaultRateLimiting (initialMetrics 0 5 1000)
        (some { count := 0, lastReset := 0, banned := false, banExpiry := 0
                consecutiveFailures := 0, lastFailure := 0, rapidAttempts := 9
                lastAttempt := 0 }) 1).limits.lastAttempt ≠ 1 := by
  decide

/-- **C4 amended.** After every `checkRateLimit` call that is not
rejected by the rapid-attempt ban — every normal return and every other
rejection — the recipient's `lastAttempt` equals `now`; the rapid-attempt
rejection alone leaves `lastAttempt` unchanged because it throws before
the `lastAttempt = now` assignment of line 213. -/
theorem checkRateLimit_lastAttempt_amended (cfg : RateLimitingConfig) (m : Metrics)
    (st : Option RecipientLimits) (now : Int)
    (h : (checkRateLimit cfg m st now).err ≠ some RLError.rapidBan) :
    (checkRateLimit cfg m st now).limits.lastAttempt = now := by
  simp only [checkRateLimit] at h ⊢
  split_ifs at h ⊢ with h1 h2
  · exact absurd rfl h
  · rw [banStep_lastAttempt]
  · rw [banStep_lastAttempt]

/-! ### Helper lemmas about the logger's object operations -/

theorem JsObj.get_set_same (o : JsObj) (k : String) (v : JsValue) :
    (o.set k v).get k = some v := by
  induction o with
  | nil => simp [JsObj.set, JsObj.get]
  | cons p rest ih =>
    obtain ⟨k', v'⟩ := p
    by_cases h : k' = k <;> simp [JsObj.set, JsObj.get, h, ih]

theorem JsObj.get_set_ne (o : JsObj) (k q : String) (v : JsValue) (h : q ≠ k) :
    (o.set k v).get q = o.get q := by
  induction o with
  | nil => simp [JsObj.set, JsObj.get, Ne.symm h]
  | cons p rest ih =>
    obtain ⟨k', v'⟩ := p
    by_cases h1 : k' = k
    · subst h1
      simp [JsObj.set, JsObj.get, Ne.symm h]
    · by_cases h2 : k' = q <;> simp [JsObj.set, JsObj.get, h1, h2, h, ih]

theorem maskStep_get_ne (m : JsObj) (field q : String) (h : q ≠ field) :
    (maskStep m field).get q = m.get q := by
  unfold maskStep
  split <;> simp [JsObj.get_set_ne _ _ _ _ h]

theorem maskFold_get_not_mem (fields : List String) (k : String) (hk : k ∉ fields) :
    ∀ m : JsObj, (fields.foldl maskStep m).get k = m.get k := by
  induction fields with
  | nil => intro m; rfl
  | cons f rest ih =>
    intro m
    have hkf : k ≠ f := fun e => hk (e ▸ List.mem_cons_self f rest)
    have hkr : k ∉ rest := fun e => hk (List.mem_cons_of_mem f e)
    rw [List.foldl_cons, ih hkr, maskStep_get_ne m f k hkf]

theorem maskFold_get_mem (fields : List String) (k : String) :
    ∀ m : JsObj, k ∈ fields → m.truthyAt k = true →
      (fields.foldl maskStep m).get k = some (JsValue.str "********") := by
  induction fields with
  | nil => intro m hk _; exact absurd hk (List.not_mem_nil k)
  | cons f rest ih =>
    intro m hk htr
    rw [List.foldl_cons]
    by_cases hkf : k = f
    · subst hkf
      have hset : (maskStep m k).get k = some (JsValue.str "********") := by
        unfold maskStep
        rw [if_pos htr, JsObj.get_set_same]
      by_cases hmem : k ∈ rest
      · refine ih _ hmem ?_
        unfold JsObj.truthyAt
        rw [hset]
        rfl
      · rw [maskFold_get_not_mem rest k hmem, hset]
    · have hmem : k ∈ rest := by
        rcases List.mem_cons.mp hk with h | h
        · exact absurd h hkf
        · exact h
      refine ih _ hmem ?_
      unfold JsObj.truthyAt
      rw [maskStep_get_ne m f k hkf]
      exact htr

theorem applyCustomFields_get_not_mem (cfs : List String) (data : JsObj) (k : String)
    (hk : k ∉ cfs) :
    ∀ e : JsObj, (applyCustomFields cfs data e).get k = e.get k := by
  induction cfs with
  | nil => intro e; rfl
  | cons f rest ih =>
    intro e
    have hkf : k ≠ f := fun hEq => hk (hEq ▸ List.mem_cons_self f rest)
    have hkr : k ∉ rest := fun hmem => hk (List.mem_cons_of_mem f hmem)
    unfold applyCustomFields
    rw [ih hkr]
    cases hd : data.get f with
    | none => rfl
    | some v =>
      by_cases htr : v.truthy = true
      · simp only [htr, if_true]
        exact JsObj.get_set_ne e f k v hkf
      · simp only [Bool.not_eq_true] at htr
        simp only [htr]
        rfl

theorem JsObj.truthyAt_exists (data : JsObj) (k : String)
    (htr : data.truthyAt k = true) :
    ∃ v, data.get k = some v ∧ v.truthy = true := by
  unfold JsObj.truthyAt at htr
  cases hd : data.get k with
  | none => rw [hd] at htr; exact absurd htr (by simp)
  | some v => rw [hd] at htr; exact ⟨v, rfl, htr⟩

theorem applyCustomFields_get_mem (cfs : List String) (data : JsObj) (k : String) :
    ∀ e : JsObj, k ∈ cfs → data.truthyAt k = true →
      (applyCustomFields cfs data e).get k = data.get k := by
  induction cfs with
  | nil => intro e hk _; exact absurd hk (List.not_mem_nil k)
  | cons f rest ih =>
    intro e hk htr
    obtain ⟨v, hv, hvt⟩ := JsObj.truthyAt_exists data k htr
    unfold applyCustomFields
    by_cases hmem : k ∈ rest
    · exact ih _ hmem htr
    · have hkf : k = f := by
        rcases List.mem_cons.mp hk with h | h
        · exact h
        · exact absurd h hmem
      subst hkf
      rw [applyCustomFields_get_not_mem rest data k hmem, hv]
      simp only [hvt, if_true]
      exact JsObj.get_set_same e k v

/-- Witness for the amended C4: a non-fresh recipient checked at
`now = 5` (one rapid attempt, not banned) is admitted and its
`lastAttempt` is updated from 0 to 5. -/
theorem checkRateLimit_lastAttempt_amended_witness :
    (checkRateLimit defaultRateLimiting (initialMetrics 0 5 1000)
        (some { count := 0, lastReset := 0, banned := false, banExpiry := 0
                consecutiveFailures := 0, lastFailure := 0, rapidAttempts := 0
                lastAttempt := 0 }) 5).err ≠ some RLError.rapidBan ∧
    (checkRateLimit defaultRateLimiting (initialMetrics 0 5 1000)
        (some { count := 0, lastReset := 0, banned := false, banExpiry := 0
                consecutiveFailures := 0, lastFailure := 0, rapidAttempts := 0
                lastAttempt := 0 }) 5).limits.lastAttempt = 5 :=
  ⟨by decide,
   checkRateLimit_lastAttempt_amended defaultRateLimiting (initialMetrics 0 5 1000)
     (some { count := 0, lastReset := 0, banned := false, banExpiry := 0
             consecutiveFailures := 0, lastFailure := 0, rapidAttempts := 0
             lastAttempt := 0 }) 5 (by decide)⟩

/-- **C10.** Sensitive-field masking is bypassed by configuration: when a
log payload carries a truthy value under a sensitive key (password, auth,
token or key) and that key is also listed in `logging.customFields`, the
JSON-format log entry written by `writeLog` contains the original
unmasked value under that key — the custom-field loop copies from the
original payload and overwrites the mask that `maskSensitiveData` had put
there. -/
theorem customFields_unmask_sensitive (cfg : LoggingConfig)
    (timestamp level : String) (data : JsObj) (k : String)
    (hdest : cfg.hasDestination = true)
    (hlog : shouldLog cfg.level level = true)
    (hjson : cfg.format = "json")
    (hsens : k ∈ sensitiveFields)
    (hcf : k ∈ cfg.customFields)
    (htruthy : data.truthyAt k = true) :
    (maskSensitiveData data).get k = some (JsValue.str "********") ∧
    ∃ entry : JsObj,
      writeLog cfg timestamp level data = some (WrittenLog.jsonLine entry) ∧
      entry.get k = data.get k := by
  refine ⟨maskFold_get_mem sensitiveFields k data hsens htruthy, ?_⟩
  have hgate : (!cfg.hasDestination || !shouldLog cfg.level level) = false := by
    rw [hdest, hlog]
    rfl
  unfold writeLog
  rw [hgate, hjson]
  rw [if_neg (by decide : ¬(false = true))]
  rw [if_neg (by decide : ¬(("json" : String) = "text"))]
  exact ⟨_, rfl, applyCustomFields_get_mem cfg.customFields data k _ hcf htruthy⟩

/-- **C2 counterexample.** Line 477 emits the `Cc` header value WITHOUT
`sanitizeHeader` (unlike From, To and Subject), so a `cc` option carrying
CR LF reaches the composed message verbatim: with
`cc = "e@f.co\r\nX-Injected: yes"`, the composed message contains the
injected line, refuting "each header value that derives from user input —
From, To, Cc, Subject — contains none of CR, LF, TAB, VT, FF". -/
theorem buildMimeMessage_cc_unsanitized_counterexample :
    containsForbiddenHeaderChar
      (ccHeaderValue (StrOrArr.single "e@f.co\r\nX-Injected: yes")) = true ∧
    buildMimeMessage "a@b.co" [] (fun _ => none)
      { «to» := StrOrArr.single "c@d.co", subject := "hi"
        cc := some (StrOrArr.single "e@f.co\r\nX-Injected: yes") } "B" =
      Except.ok
        ("MIME-Version: 1.0\r\nFrom: a@b.co\r\nTo: c@d.co\r\nCc: e@f.co\r\nX-Injected: yes\r\nSubject: hi\r\nContent-Type: multipart/mixed; boundary=\"B\"\r\n\r\n--B--\r\n.") := by
  constructor
  · decide
  · decide

/-- **C2 amended.** In every composed message, the From, To and Subject
header values (which pass through `sanitizeHeader`) contain none of CR,
LF, TAB, VT, FF; the Cc header value is emitted without sanitization.
Every successfully composed message starts with the header block built
from exactly these values. -/
theorem buildMimeMessage_header_sanitization (fromAddr : String)
    (mimeTypes : List (String × String)) (fs : String → Option (String × List Nat))
    (options : MailOptions) (boundary : String) (s : String)
    (h : buildMimeMessage fromAddr mimeTypes fs options boundary = Except.ok s) :
    (∃ rest, s = mimeHeaders fromAddr options boundary ++ rest) ∧
    containsForbiddenHeaderChar (fromHeaderValue fromAddr) = false ∧
    containsForbiddenHeaderChar (toHeaderValue options.«to») = false ∧
    containsForbiddenHeaderChar (subjectHeaderValue options.subject) = false := by
  refine ⟨?_, sanitizeHeader_clean _, sanitizeHeader_clean _, sanitizeHeader_clean _⟩
  unfold buildMimeMessage at h
  cases hatt : (match options.attachments with
    | some l => attachmentsPart mimeTypes fs boundary l
    | none => Except.ok "") with
  | error e =>
    rw [hatt] at h
    exact absurd h (by simp [Except.map])
  | ok attStr =>
    rw [hatt] at h
    simp only [Except.map, Except.ok.injEq] at h
    exact ⟨_, h.symm⟩

/-- Witness for the amended C2: a concrete message with no cc and no
attachments composes successfully and starts with its header block. -/
theorem buildMimeMessage_header_sanitization_witness :
    buildMimeMessage "a@b.co" [] (fun _ => none)
      { «to» := StrOrArr.single "c@d.co", subject := "hi" } "B" =
      Except.ok
        ("MIME-Version: 1.0\r\nFrom: a@b.co\r\nTo: c@d.co\r\nSubject: hi\r\nContent-Type: multipart/mixed; boundary=\"B\"\r\n\r\n--B--\r\n.") ∧
    ((∃ rest,
        ("MIME-Version: 1.0\r\nFrom: a@b.co\r\nTo: c@d.co\r\nSubject: hi\r\nContent-Type: multipart/mixed; boundary=\"B\"\r\n\r\n--B--\r\n." : String) =
          mimeHeaders "a@b.co" { «to» := StrOrArr.single "c@d.co", subject := "hi" } "B" ++ rest) ∧
      containsForbiddenHeaderChar (fromHeaderValue "a@b.co") = false ∧
      containsForbiddenHeaderChar (toHeaderValue (StrOrArr.single "c@d.co")) = false ∧
      containsForbiddenHeaderChar (subjectHeaderValue "hi") = false) :=
  ⟨rfl,
   buildMimeMessage_header_sanitization "a@b.co" [] (fun _ => none)
     { «to» := StrOrArr.single "c@d.co", subject := "hi" } "B" _ (by decide)⟩

/-- A send environment whose connection probes succeed. -/
def probeOnlyEnv : SendEnv :=
  { probeOutcome := ConnOutcome.ok, txOutcome := ConnOutcome.ok, cmdWriteFail := false
    fs := fun _ => none, mimeTypes := [], boundary := "B", now := 0, sendTime := 0 }

/-- A plain STARTTLS-port configuration with default rate limiting. -/
def exampleConfig : MailerConfig :=
  { host := "smtp.example.com", port := 587, secure := false, fromAddr := "a@b.co"
    authUser := "user", authPass := "pass", keepAlive := false
    rateLimiting := defaultRateLimiting }

/-- A freshly constructed instance's state. -/
def freshState : MailerState :=
  { metrics := initialMetrics 0 5 1000, rateLimits := [] }

/-- **C1 counterexample.** `sendMail({to: "notanemail", ...})` with a
succeeding connection probe rejects `EINVALIDEMAIL` /
`validation_error` and leaves `emails_total` at 0 — but a socket HAS
been opened before the rejection: `sendMail` runs `verifyConnection`
(which opens and closes a probe socket) before validating recipients,
refuting "no socket is opened before the rejection". -/
theorem sendMail_validation_socket_counterexample :
    (sendMail exampleConfig probeOnlyEnv freshState
      { «to» := StrOrArr.single "notanemail", subject := "x", text := some "y" }).result =
      Except.error
        { code := "EINVALIDEMAIL", message := "Invalid email format: notanemail"
          etype := "validation_error" } ∧
    (sendMail exampleConfig probeOnlyEnv freshState
      { «to» := StrOrArr.single "notanemail", subject := "x"
        text := some "y" }).state.metrics.emails_total = 0 ∧
    ¬((sendMail exampleConfig probeOnlyEnv freshState
      { «to» := StrOrArr.single "notanemail", subject := "x"
        text := some "y" }).socketsOpened = 0) ∧
    (sendMail exampleConfig probeOnlyEnv freshState
      { «to» := StrOrArr.single "notanemail", subject := "x"
        text := some "y" }).socketsOpened = 1 := by
  refine ⟨?_, ?_, ?_, ?_⟩ <;> decide

/-- **C1 amended.** For every `sendMail` call whose recipient list
contains an address rejected by the validator, if the `verifyConnection`
probe succeeds the call rejects with `EINVALIDEMAIL` and
`details.type = validation_error`, `emails_total` is unchanged, and the
SMTP transaction socket is never opened — the only socket opened before
the rejection is the probe socket of the `verifyConnection` call that
`sendMail` performs first (if the probe fails, the call rejects
`ECONNECTION` instead and no socket is opened). -/
theorem sendMail_validation_reject (cfg : MailerConfig) (env : SendEnv)
    (st : MailerState) (options : MailOptions)
    (hprobe : env.probeOutcome = ConnOutcome.ok)
    (hinvalid : ∃ r ∈ recipientsOf options, validateEmail r = false) :
    ∃ rcpt,
      validateEmail rcpt = false ∧
      (sendMail cfg env st options).result =
        Except.error
          { code := "EINVALIDEMAIL", message := "Invalid email format: " ++ rcpt
            etype := "validation_error" } ∧
      (sendMail cfg env st options).state.metrics.emails_total =
        st.metrics.emails_total ∧
      (sendMail cfg env st options).socketsOpened = 1 ∧
      (sendMail cfg env st options).txSocketOpened = false := by
  obtain ⟨r0, hmem, hr0⟩ := hinvalid
  have hsome : ((recipientsOf options).find? (fun r => !validateEmail r)).isSome := by
    rw [List.find?_isSome]
    exact ⟨r0, hmem, by simp [hr0]⟩
  cases hf : (recipientsOf options).find? (fun r => !validateEmail r) with
  | none => rw [hf] at hsome; simp at hsome
  | some r =>
    have hr : validateEmail r = false := by
      have := List.find?_some hf
      simpa using this
    refine ⟨r, hr, ?_, ?_, ?_, ?_⟩ <;>
    · unfold sendMail
      rw [hprobe, hf]
      rfl

/-- Witness for the amended C1: the concrete call of the counterexample,
through the amended theorem. -/
theorem sendMail_validation_reject_witness :
    ∃ rcpt,
      validateEmail rcpt = false ∧
      (sendMail exampleConfig probeOnlyEnv freshState
        { «to» := StrOrArr.single "notanemail", subject := "x" }).result =
        Except.error
          { code := "EINVALIDEMAIL", message := "Invalid email format: " ++ rcpt
            etype := "validation_error" } ∧
      (sendMail exampleConfig probeOnlyEnv freshState
        { «to» := StrOrArr.single "notanemail"
          subject := "x" }).state.metrics.emails_total = freshState.metrics.emails_total ∧
      (sendMail exampleConfig probeOnlyEnv freshState
        { «to» := StrOrArr.single "notanemail", subject := "x" }).socketsOpened = 1 ∧
      (sendMail exampleConfig probeOnlyEnv freshState
        { «to» := StrOrArr.single "notanemail", subject := "x" }).txSocketOpened = false :=
  sendMail_validation_reject exampleConfig probeOnlyEnv freshState
    { «to» := StrOrArr.single "notanemail", subject := "x" } rfl (by decide)

/-- Witness for C10: a payload with `password = "hunter2"`, a `json`
logger at `debug` level whose `customFields` lists `password`: the masked
copy holds the mask, but the written JSON entry exposes `"hunter2"`. -/
theorem customFields_unmask_sensitive_witness :
    (maskSensitiveData [("password", JsValue.str "hunter2")]).get "password" =
      some (JsValue.str "********") ∧
    ∃ entry : JsObj,
      writeLog
        { level := some "debug", format := "json", customFields := ["password"]
          hasDestination := true }
        "2026-01-01T00:00:00.000Z" "info" [("password", JsValue.str "hunter2")] =
        some (WrittenLog.jsonLine entry) ∧
      entry.get "password" = JsObj.get [("password", JsValue.str "hunter2")] "password" :=
  customFields_unmask_sensitive
    { level := some "debug", format := "json", customFields := ["password"]
      hasDestination := true }
    "2026-01-01T00:00:00.000Z" "info" [("password", JsValue.str "hunter2")] "password"
    rfl rfl rfl (by decide) (by decide) (by decide)

end FastMailer
